import Mathlib

/-!
# TrelloMCP: shallow embedding and verification

A shallow embedding of the TrelloMCP repository (files
`src/trello_mcp/trello_client.py` and `src/trello_mcp/server.py`) together
with theorems settling the frozen claims about its specification.

The remote HTTP world is abstracted: each operation that performs I/O takes
the outcome of that I/O (the HTTP response, the exception message of the
underlying client call, the state of the local file system) as an explicit
argument, and the definitions compute exactly what the Python code computes
from that outcome: the request it issues (method, endpoint, query
parameters) and the value it returns or the failure it raises.
-/

namespace TrelloMCP

/-- JSON-like values as they flow through the Python code: `None`, strings,
booleans, integers, lists, and dictionaries (modelled as association lists
in insertion order). -/
inductive Value where
  | null : Value
  | str (s : String) : Value
  | bool (b : Bool) : Value
  | num (n : Int) : Value
  | list (l : List Value) : Value
  | dict (d : List (String × Value)) : Value

/-- A Python dictionary with string keys, as an association list in
insertion order; a repeated key means the later binding wins on lookup. -/
abbrev Dict := List (String × Value)

/-- Lookup in a `Dict`: the value of the LAST binding of the key (Python
dictionary semantics under repeated insertion), `none` when absent. -/
def dictGet : Dict → String → Option Value
  | [], _ => none
  | (k, v) :: rest, key =>
    match dictGet rest key with
    | some v2 => some v2
    | none => if k == key then some v else none

/-- Python truthiness of a value (`bool(x)`): `None`, empty strings, zero,
and empty collections are falsy. -/
def Value.truthy : Value → Bool
  | .null => false
  | .str s => !s.isEmpty
  | .bool b => b
  | .num n => n != 0
  | .list l => !l.isEmpty
  | .dict d => !d.isEmpty

mutual

/-- Python `repr(x)` for the embedded values. String escaping inside the
quotes is not reproduced (the rendered fields in this repository are plain
identifier-like strings for which `repr` adds only the quotes). -/
def Value.pyRepr : Value → String
  | .null => "None"
  | .str s => "'" ++ s ++ "'"
  | .bool b => if b then "True" else "False"
  | .num n => toString n
  | .list l => "[" ++ String.intercalate ", " (pyReprList l) ++ "]"
  | .dict d => "\x7b" ++ String.intercalate ", " (pyReprDict d) ++ "\x7d"

/-- `repr` of each element of a Python list. -/
def pyReprList : List Value → List String
  | [] => []
  | v :: vs => Value.pyRepr v :: pyReprList vs

/-- `repr` of each `key: value` entry of a Python dictionary. -/
def pyReprDict : List (String × Value) → List String
  | [] => []
  | (k, v) :: rest => ("'" ++ k ++ "': " ++ Value.pyRepr v) :: pyReprDict rest

end

/-- Python `str(x)`: the string itself for strings, `repr` otherwise
(matching `str` on `None`, booleans, numbers, lists and dictionaries). -/
def Value.pyStr : Value → String
  | .str s => s
  | .null => "None"
  | .bool b => if b then "True" else "False"
  | .num n => toString n
  | .list l => Value.pyRepr (.list l)
  | .dict d => Value.pyRepr (.dict d)

/-- Python `str(d.get(k))`: `"None"` when the key is absent. -/
def pyStrOpt : Option Value → String
  | some v => v.pyStr
  | none => "None"

/-- Python `str(d.get(k, default))` where `default` is a string literal:
the default is used only when the key is ABSENT (a present `None` value
renders as `"None"`). -/
def dictGetPy (d : Dict) (k dflt : String) : String :=
  match dictGet d k with
  | some v => v.pyStr
  | none => dflt

namespace TrelloClient

/-- `TrelloClient.BASE_URL`. -/
def BASE_URL : String := "https://api.trello.com/1"

/-- The typed failures raised by `TrelloClient._request` (in the Python
source all are `Exception` instances distinguished by their message; the
constructor records which classification branch raised). -/
inductive RequestError where
  | invalidCredentials : RequestError
  | notFound (endpoint : String) : RequestError
  | rateLimit : RequestError
  | apiError (status : Nat) : RequestError
  | networkError (cause : String) : RequestError

/-- `str(e)` of the exception raised by each branch of
`TrelloClient._request`'s error handling. -/
def RequestError.message : RequestError → String
  | .invalidCredentials => "Invalid Trello API credentials"
  | .notFound endpoint => "Resource not found: " ++ endpoint
  | .rateLimit =>
      "Trello API rate limit exceeded. Consider using webhooks for frequent updates."
  | .apiError status => "Trello API error: " ++ toString status
  | .networkError cause => "Network error: " ++ cause

/-- The status-code classification in `TrelloClient._request`'s
`httpx.HTTPStatusError` handler: 401, 404 and 429 get dedicated failures,
everything else the generic API failure carrying the status code. -/
def classifyStatus (status : Nat) (endpoint : String) : RequestError :=
  if status == 401 then .invalidCredentials
  else if status == 404 then .notFound endpoint
  else if status == 429 then .rateLimit
  else .apiError status

/-- What the HTTP transport returns for one issued request: a response with
a status code and decoded JSON body, or a transport-level error
(`httpx.RequestError`: timeout, DNS, connection refused) with its message. -/
inductive HttpResult where
  | resp (status : Nat) (body : Value) : HttpResult
  | transportError (cause : String) : HttpResult

/-- `TrelloClient._add_auth`: merge the credential parameters into the
caller-supplied query parameters. Python's `{**params, **auth_params}` is
modelled as list append with the last-binding-wins lookup of `dictGet`, so
the auth values win for the keys `"key"` and `"token"`. A `None` or empty
`params` (both falsy in Python) yields the auth parameters alone. -/
def «_add_auth» (api_key api_token : String) (params : Option Dict) : Dict :=
  let auth_params : Dict := [("key", .str api_key), ("token", .str api_token)]
  match params with
  | some p => if p.isEmpty then auth_params else p ++ auth_params
  | none => auth_params

/-- One outgoing HTTP call as handed to `httpx.Client.request`. -/
structure HttpCall where
  method : String
  url : String
  params : Dict

/-- `TrelloClient._request`: builds the URL and authenticated parameters,
issues the call (whose outcome `world` is supplied), and either returns the
decoded body (2xx status, following `httpx.Response.raise_for_status`) or
raises the classified failure. Returns the issued call together with the
result. -/
def «_request» (api_key api_token : String) (method endpoint : String)
    (params : Option Dict) (world : HttpResult) :
    HttpCall × Except RequestError Value :=
  let call : HttpCall :=
    { method := method
      url := BASE_URL ++ endpoint
      params := «_add_auth» api_key api_token params }
  match world with
  | .transportError cause => (call, .error (.networkError cause))
  | .resp status body =>
    if 200 ≤ status ∧ status < 300 then (call, .ok body)
    else (call, .error (classifyStatus status endpoint))

/-- The request a resource operation hands to `_request`: method, endpoint
and the parameter dictionary built by the operation (before auth
injection). -/
structure Request where
  method : String
  endpoint : String
  params : Dict

/-- Python `if x: params[k] = x` for an optional string input: the entry is
added only when the input is present AND non-empty (truthiness). -/
def strIf (k : String) : Option String → Dict
  | some s => if s.isEmpty then [] else [(k, .str s)]
  | none => []

/-- Python `if x is not None: params[k] = x` for an optional string input:
the entry is added whenever the input is present, even when empty. -/
def strIfSome (k : String) : Option String → Dict
  | some s => [(k, .str s)]
  | none => []

/-- Python `if x is not None: params[k] = x` for an optional boolean. -/
def boolIfSome (k : String) : Option Bool → Dict
  | some b => [(k, .bool b)]
  | none => []

/-- `TrelloClient.create_board`. -/
def create_board (name : String) (desc : Option String) : Request :=
  { method := "POST", endpoint := "/boards/"
    params := [("name", .str name)] ++ strIf "desc" desc }

/-- `TrelloClient.create_list`. -/
def create_list (board_id name : String) (pos : Option String) : Request :=
  { method := "POST", endpoint := s!"/boards/{board_id}/lists"
    params := [("name", .str name)] ++ strIf "pos" pos }

/-- `TrelloClient.archive_list`. -/
def archive_list (list_id : String) : Request :=
  { method := "PUT", endpoint := s!"/lists/{list_id}/closed"
    params := [("value", .str "true")] }

/-- `TrelloClient.create_card`. -/
def create_card (list_id name : String) (desc pos due : Option String) :
    Request :=
  { method := "POST", endpoint := "/cards"
    params := [("idList", .str list_id), ("name", .str name)]
      ++ strIf "desc" desc ++ strIf "pos" pos ++ strIf "due" due }

/-- `TrelloClient.update_card`: `name`, `desc` and `list_id` are
truthiness-tested, `due` and `due_complete` are `is not None`-tested. -/
def update_card (card_id : String) (name desc list_id due : Option String)
    (due_complete : Option Bool) : Request :=
  { method := "PUT", endpoint := s!"/cards/{card_id}"
    params := strIf "name" name ++ strIf "desc" desc
      ++ strIf "idList" list_id ++ strIfSome "due" due
      ++ boolIfSome "dueComplete" due_complete }

/-- `TrelloClient.delete_card`. -/
def delete_card (card_id : String) : Request :=
  { method := "DELETE", endpoint := s!"/cards/{card_id}", params := [] }

/-- `TrelloClient.move_card`. -/
def move_card (card_id list_id : String) (pos : Option String) : Request :=
  { method := "PUT", endpoint := s!"/cards/{card_id}"
    params := [("idList", .str list_id)] ++ strIf "pos" pos }

/-- `TrelloClient.set_card_due_date`. -/
def set_card_due_date (card_id due_date : String) : Request :=
  { method := "PUT", endpoint := s!"/cards/{card_id}"
    params := [("due", .str due_date)] }

/-- `TrelloClient.mark_due_date_complete`. -/
def mark_due_date_complete (card_id : String) (complete : Bool) : Request :=
  { method := "PUT", endpoint := s!"/cards/{card_id}"
    params := [("dueComplete", .bool complete)] }

/-- `TrelloClient.clear_card_due_date`: sends `due` bound to Python `None`
(an explicit null). -/
def clear_card_due_date (card_id : String) : Request :=
  { method := "PUT", endpoint := s!"/cards/{card_id}"
    params := [("due", .null)] }

/-- `TrelloClient.create_checklist`: the required `name` is nevertheless
truthiness-tested before insertion. -/
def create_checklist (card_id name : String) (pos : Option String) :
    Request :=
  { method := "POST", endpoint := "/checklists"
    params := [("idCard", .str card_id)]
      ++ (if name.isEmpty then [] else [("name", .str name)])
      ++ strIf "pos" pos }

/-- `TrelloClient.update_checklist`. -/
def update_checklist (checklist_id : String) (name pos : Option String) :
    Request :=
  { method := "PUT", endpoint := s!"/checklists/{checklist_id}"
    params := strIf "name" name ++ strIf "pos" pos }

/-- `TrelloClient.add_checklist_item`: `checked` is `is not None`-tested
and serialized as Python `str(checked).lower()`. -/
def add_checklist_item (checklist_id name : String) (checked : Option Bool)
    (pos : Option String) : Request :=
  { method := "POST", endpoint := s!"/checklists/{checklist_id}/checkItems"
    params := [("name", .str name)]
      ++ (match checked with
          | some b => [("checked", .str (if b then "true" else "false"))]
          | none => [])
      ++ strIf "pos" pos }

/-- `TrelloClient.update_checklist_item`. -/
def update_checklist_item (card_id checklist_item_id : String)
    (name state pos : Option String) : Request :=
  { method := "PUT"
    endpoint := s!"/cards/{card_id}/checkItem/{checklist_item_id}"
    params := strIf "name" name ++ strIf "state" state ++ strIf "pos" pos }

/-- `TrelloClient.create_label`: `color` is `is not None`-tested. -/
def create_label (board_id name : String) (color : Option String) :
    Request :=
  { method := "POST", endpoint := "/labels"
    params := [("idBoard", .str board_id), ("name", .str name)]
      ++ strIfSome "color" color }

/-- `TrelloClient.update_label`: both `name` and `color` are
`is not None`-tested, so an explicitly empty string is still sent. -/
def update_label (label_id : String) (name color : Option String) :
    Request :=
  { method := "PUT", endpoint := s!"/labels/{label_id}"
    params := strIfSome "name" name ++ strIfSome "color" color }

/-- `TrelloClient.set_card_labels`: the id list is comma-joined. -/
def set_card_labels (card_id : String) (label_ids : List String) :
    Request :=
  { method := "PUT", endpoint := s!"/cards/{card_id}"
    params := [("idLabels", .str (String.intercalate "," label_ids))] }

/-- `TrelloClient.add_attachment_url`. -/
def add_attachment_url (card_id url : String) (name : Option String) :
    Request :=
  { method := "POST", endpoint := s!"/cards/{card_id}/attachments"
    params := [("url", .str url)] ++ strIf "name" name }

/-- Python `os.path.basename`: everything after the last `/`. -/
def basename (p : String) : String :=
  (p.splitOn "/").getLastD ""

/-- What `TrelloClient.add_attachment_file` does: either it raises
`FileNotFoundError` before any network activity (the constructor carries no
request), or it POSTs the multipart upload with the resolved attachment
name. -/
inductive UploadAction where
  | fileNotFound (msg : String) : UploadAction
  | post (url : String) (params : Dict) (attachmentName : String) :
      UploadAction

/-- `TrelloClient.add_attachment_file`: checks `os.path.exists(file_path)`
(supplied as `fileExists`) and raises before any network call when absent;
otherwise uploads under `name or os.path.basename(file_path)` (Python `or`:
a `None` or empty caller name falls back to the base name). -/
def add_attachment_file (api_key api_token card_id file_path : String)
    (name : Option String) (fileExists : Bool) : UploadAction :=
  if !fileExists then .fileNotFound s!"File not found: {file_path}"
  else
    let attachment_name :=
      match name with
      | some n => if n.isEmpty then basename file_path else n
      | none => basename file_path
    .post (BASE_URL ++ s!"/cards/{card_id}/attachments")
      («_add_auth» api_key api_token none) attachment_name

/-- `attachment.get("fileName") or attachment.get("name") or "download"`:
the filename resolution of `TrelloClient.download_attachment` (Python `or`
falls through on falsy values, so an absent, null or empty field is
skipped). -/
def resolveFilename (attachment : Dict) : String :=
  let second : String :=
    match dictGet attachment "name" with
    | some v => if v.truthy then v.pyStr else "download"
    | none => "download"
  match dictGet attachment "fileName" with
  | some v => if v.truthy then v.pyStr else second
  | none => second

/-- Transport outcome of the binary download GET: status plus raw body
bytes, or a transport error. -/
inductive HttpBinResult where
  | resp (status : Nat) (content : List Nat) : HttpBinResult
  | transportError (cause : String) : HttpBinResult

/-- The world `TrelloClient.download_attachment` interacts with: the
outcome of the metadata fetch (`get_attachment`), the outcome of the
download GET, and whether the local write raises `IOError` (with its
message). -/
structure DownloadEnv where
  metadata : Except RequestError Dict
  download : HttpBinResult
  writeError : Option String

/-- Everything observable about one `download_attachment` run: the download
GET it issued (`none` when the metadata fetch failed and no GET happened),
the bytes written to the output path (`none` when nothing was written), and
the returned value or raised message. -/
structure DownloadTrace where
  get : Option HttpCall
  written : Option (List Nat)
  result : Except String Value

/-- `TrelloClient.download_attachment`: fetches metadata FIRST (a metadata
failure propagates before any download GET), resolves the filename, GETs
the authenticated download endpoint, writes the raw body to `output_path`,
and returns the result dictionary; non-2xx and transport and write failures
raise the messages of the Python handlers. -/
def download_attachment (api_key api_token card_id attachment_id
    output_path : String) (env : DownloadEnv) : DownloadTrace :=
  match env.metadata with
  | .error e => { get := none, written := none, result := .error e.message }
  | .ok attachment =>
    let filename := resolveFilename attachment
    let download_url :=
      BASE_URL ++ s!"/cards/{card_id}/attachments/{attachment_id}/download/{filename}"
    let call : HttpCall :=
      { method := "GET", url := download_url
        params := «_add_auth» api_key api_token none }
    match env.download with
    | .transportError cause =>
      { get := some call, written := none
        result := .error ("Network error during download: " ++ cause) }
    | .resp status content =>
      if 200 ≤ status ∧ status < 300 then
        match env.writeError with
        | some ioMsg =>
          { get := some call, written := none
            result := .error ("Failed to write file: " ++ ioMsg) }
        | none =>
          { get := some call, written := some content
            result := .ok (.dict
              [("success", .bool true),
               ("path", .str output_path),
               ("size", .num content.length),
               ("name", .str filename),
               ("attachment_id", .str attachment_id)]) }
      else
        { get := some call, written := none
          result := .error (
            if status == 401 then "Invalid Trello API credentials"
            else if status == 404 then
              "Attachment not found: " ++ attachment_id
            else if status == 429 then "Trello API rate limit exceeded"
            else "Failed to download attachment: " ++ toString status) }

end TrelloClient

/-!
## Tool facade (`server.py`)

Each `@mcp.tool()` wrapper forwards its arguments to the corresponding
client method and wraps the call in `try/except`. The client call, with all
forwarded arguments, is abstracted as its outcome `call`: `.ok v` when the
client returned `v`, `.error e` when it raised an exception with
`str(e) = e`. Each definition computes exactly the wrapper's return value;
the `context.info`/`context.error` observability events are not modelled.
-/

namespace Server

/-- `server.list_boards`. -/
def list_boards (call : Except String (List Value)) : List Value :=
  match call with
  | .ok boards => boards
  | .error e => [.dict [("error", .str e)]]

/-- `server.get_board`. -/
def get_board (board_id : String) (call : Except String Value) : Value :=
  match call with
  | .ok board => board
  | .error e => .dict [("error", .str e), ("board_id", .str board_id)]

/-- `server.create_board`. -/
def create_board (name : String) (call : Except String Value) : Value :=
  match call with
  | .ok board => board
  | .error e => .dict [("error", .str e), ("name", .str name)]

/-- `server.get_board_lists`. -/
def get_board_lists (board_id : String)
    (call : Except String (List Value)) : List Value :=
  match call with
  | .ok lists => lists
  | .error e => [.dict [("error", .str e), ("board_id", .str board_id)]]

/-- `server.create_list`. -/
def create_list (board_id name : String) (call : Except String Value) :
    Value :=
  match call with
  | .ok list_obj => list_obj
  | .error e => .dict
      [("error", .str e), ("board_id", .str board_id), ("name", .str name)]

/-- `server.archive_list`. -/
def archive_list (list_id : String) (call : Except String Value) : Value :=
  match call with
  | .ok list_obj => list_obj
  | .error e => .dict [("error", .str e), ("list_id", .str list_id)]

/-- `server.list_cards`. -/
def list_cards (list_id : String) (call : Except String (List Value)) :
    List Value :=
  match call with
  | .ok cards => cards
  | .error e => [.dict [("error", .str e), ("list_id", .str list_id)]]

/-- `server.get_card`. -/
def get_card (card_id : String) (call : Except String Value) : Value :=
  match call with
  | .ok card => card
  | .error e => .dict [("error", .str e), ("card_id", .str card_id)]

/-- `server.create_card`. -/
def create_card (list_id name : String) (call : Except String Value) :
    Value :=
  match call with
  | .ok card => card
  | .error e => .dict
      [("error", .str e), ("list_id", .str list_id), ("name", .str name)]

/-- `server.update_card`. -/
def update_card (card_id : String) (call : Except String Value) : Value :=
  match call with
  | .ok card => card
  | .error e => .dict [("error", .str e), ("card_id", .str card_id)]

/-- `server.delete_card`: on success the client result is WRAPPED in a
success object, not returned verbatim. -/
def delete_card (card_id : String) (call : Except String Value) : Value :=
  match call with
  | .ok result => .dict
      [("success", .bool true), ("card_id", .str card_id),
       ("result", result)]
  | .error e => .dict [("error", .str e), ("card_id", .str card_id)]

/-- `server.move_card`. -/
def move_card (card_id list_id : String) (call : Except String Value) :
    Value :=
  match call with
  | .ok card => card
  | .error e => .dict
      [("error", .str e), ("card_id", .str card_id),
       ("list_id", .str list_id)]

/-- `server.get_card_checklists`. -/
def get_card_checklists (card_id : String)
    (call : Except String (List Value)) : List Value :=
  match call with
  | .ok checklists => checklists
  | .error e => [.dict [("error", .str e), ("card_id", .str card_id)]]

/-- `server.create_checklist`. -/
def create_checklist (card_id name : String) (call : Except String Value) :
    Value :=
  match call with
  | .ok checklist => checklist
  | .error e => .dict
      [("error", .str e), ("card_id", .str card_id), ("name", .str name)]

/-- `server.get_checklist`. -/
def get_checklist (checklist_id : String) (call : Except String Value) :
    Value :=
  match call with
  | .ok checklist => checklist
  | .error e => .dict
      [("error", .str e), ("checklist_id", .str checklist_id)]

/-- `server.update_checklist`. -/
def update_checklist (checklist_id : String) (call : Except String Value) :
    Value :=
  match call with
  | .ok checklist => checklist
  | .error e => .dict
      [("error", .str e), ("checklist_id", .str checklist_id)]

/-- `server.delete_checklist`. -/
def delete_checklist (checklist_id : String) (call : Except String Value) :
    Value :=
  match call with
  | .ok result => result
  | .error e => .dict
      [("error", .str e), ("checklist_id", .str checklist_id)]

/-- `server.get_checklist_items`. -/
def get_checklist_items (checklist_id : String)
    (call : Except String (List Value)) : List Value :=
  match call with
  | .ok items => items
  | .error e =>
      [.dict [("error", .str e), ("checklist_id", .str checklist_id)]]

/-- `server.add_checklist_item`. -/
def add_checklist_item (checklist_id name : String)
    (call : Except String Value) : Value :=
  match call with
  | .ok item => item
  | .error e => .dict
      [("error", .str e), ("checklist_id", .str checklist_id),
       ("name", .str name)]

/-- `server.update_checklist_item`. -/
def update_checklist_item (card_id checklist_item_id : String)
    (call : Except String Value) : Value :=
  match call with
  | .ok item => item
  | .error e => .dict
      [("error", .str e), ("card_id", .str card_id),
       ("checklist_item_id", .str checklist_item_id)]

/-- `server.delete_checklist_item`. -/
def delete_checklist_item (checklist_id checklist_item_id : String)
    (call : Except String Value) : Value :=
  match call with
  | .ok result => result
  | .error e => .dict
      [("error", .str e), ("checklist_id", .str checklist_id),
       ("checklist_item_id", .str checklist_item_id)]

/-- `server.get_board_labels`. -/
def get_board_labels (board_id : String)
    (call : Except String (List Value)) : List Value :=
  match call with
  | .ok labels => labels
  | .error e => [.dict [("error", .str e), ("board_id", .str board_id)]]

/-- `server.create_label`. -/
def create_label (board_id name : String) (call : Except String Value) :
    Value :=
  match call with
  | .ok label => label
  | .error e => .dict
      [("error", .str e), ("board_id", .str board_id), ("name", .str name)]

/-- `server.update_label`. -/
def update_label (label_id : String) (call : Except String Value) : Value :=
  match call with
  | .ok label => label
  | .error e => .dict [("error", .str e), ("label_id", .str label_id)]

/-- `server.delete_label`. -/
def delete_label (label_id : String) (call : Except String Value) : Value :=
  match call with
  | .ok result => result
  | .error e => .dict [("error", .str e), ("label_id", .str label_id)]

/-- `server.get_card_labels`. -/
def get_card_labels (card_id : String)
    (call : Except String (List Value)) : List Value :=
  match call with
  | .ok labels => labels
  | .error e => [.dict [("error", .str e), ("card_id", .str card_id)]]

/-- `server.add_label_to_card`. -/
def add_label_to_card (card_id label_id : String)
    (call : Except String Value) : Value :=
  match call with
  | .ok result => result
  | .error e => .dict
      [("error", .str e), ("card_id", .str card_id),
       ("label_id", .str label_id)]

/-- `server.remove_label_from_card`. -/
def remove_label_from_card (card_id label_id : String)
    (call : Except String Value) : Value :=
  match call with
  | .ok result => result
  | .error e => .dict
      [("error", .str e), ("card_id", .str card_id),
       ("label_id", .str label_id)]

/-- `server.set_card_labels`: the error object carries the attempted id
list itself. -/
def set_card_labels (card_id : String) (label_ids : List String)
    (call : Except String Value) : Value :=
  match call with
  | .ok result => result
  | .error e => .dict
      [("error", .str e), ("card_id", .str card_id),
       ("label_ids", .list (label_ids.map .str))]

/-- `server.set_card_due_date`. -/
def set_card_due_date (card_id due_date : String)
    (call : Except String Value) : Value :=
  match call with
  | .ok card => card
  | .error e => .dict
      [("error", .str e), ("card_id", .str card_id),
       ("due_date", .str due_date)]

/-- `server.mark_due_date_complete`. -/
def mark_due_date_complete (card_id : String) (call : Except String Value) :
    Value :=
  match call with
  | .ok card => card
  | .error e => .dict [("error", .str e), ("card_id", .str card_id)]

/-- `server.clear_card_due_date`. -/
def clear_card_due_date (card_id : String) (call : Except String Value) :
    Value :=
  match call with
  | .ok card => card
  | .error e => .dict [("error", .str e), ("card_id", .str card_id)]

/-- `server.get_card_attachments`. -/
def get_card_attachments (card_id : String)
    (call : Except String (List Value)) : List Value :=
  match call with
  | .ok attachments => attachments
  | .error e => [.dict [("error", .str e), ("card_id", .str card_id)]]

/-- `server.get_attachment`. -/
def get_attachment (card_id attachment_id : String)
    (call : Except String Value) : Value :=
  match call with
  | .ok attachment => attachment
  | .error e => .dict
      [("error", .str e), ("card_id", .str card_id),
       ("attachment_id", .str attachment_id)]

/-- `server.add_attachment_url`. -/
def add_attachment_url (card_id url : String) (call : Except String Value) :
    Value :=
  match call with
  | .ok attachment => attachment
  | .error e => .dict
      [("error", .str e), ("card_id", .str card_id), ("url", .str url)]

/-- `server.add_attachment_file`: the `FileNotFoundError` handler and the
generic handler build the same error object, so one error branch models
both. -/
def add_attachment_file (card_id file_path : String)
    (call : Except String Value) : Value :=
  match call with
  | .ok attachment => attachment
  | .error e => .dict
      [("error", .str e), ("card_id", .str card_id),
       ("file_path", .str file_path)]

/-- `server.download_attachment`. -/
def download_attachment (card_id attachment_id output_path : String)
    (call : Except String Value) : Value :=
  match call with
  | .ok result => result
  | .error e => .dict
      [("error", .str e), ("card_id", .str card_id),
       ("attachment_id", .str attachment_id),
       ("output_path", .str output_path)]

/-- `server.delete_attachment`: on success the client result is WRAPPED in
a success object, not returned verbatim. -/
def delete_attachment (card_id attachment_id : String)
    (call : Except String Value) : Value :=
  match call with
  | .ok result => .dict
      [("success", .bool true), ("card_id", .str card_id),
       ("attachment_id", .str attachment_id), ("result", result)]
  | .error e => .dict
      [("error", .str e), ("card_id", .str card_id),
       ("attachment_id", .str attachment_id)]

/-!
### Resource views (`server.py` `@mcp.resource` handlers)

The three read-only composite views. The client fetches they perform
(`get_board`, `get_board_lists`, `list_cards`, `get_card`) are abstracted
as the outcomes recorded in an environment: `.ok` with the decoded entity
dictionaries, or `.error` with the raised exception's message.
-/

/-- The world `get_board_resource` reads: the board fetch, the list fetch,
and, for each list id value (`list_obj.get("id")`, possibly absent), the
card fetch for that list. -/
structure BoardEnv where
  board : Except String Dict
  lists : Except String (List Dict)
  cardsOf : Option Value → Except String (List Value)

/-- The lines `get_board_resource` appends for one card of one list: the
bullet line, then a description line when `card.get("desc")` is truthy. -/
def boardCardLines (card : Dict) : List String :=
  let card_name := dictGetPy card "name" "Unknown"
  let card_id := dictGetPy card "id" "N/A"
  s!"      • {card_name} (ID: {card_id})" ::
    (match dictGet card "desc" with
     | some v =>
        if v.truthy then
          let d := v.pyStr
          [s!"        Description: {d}"]
        else []
     | none => [])

/-- Python `card` as read by the card loops: each fetched card is a
dictionary; a non-dictionary element contributes the defaults of `.get`. -/
def asDict : Value → Dict
  | .dict d => d
  | _ => []

/-- The lines `get_board_resource` appends for one list: the list header,
then — under the per-list `try` — either the card block, `"    No cards"`
for an empty fetch, or `"    Error loading cards"` when the fetch raised. -/
def listBlock (cardsOf : Option Value → Except String (List Value))
    (list_obj : Dict) : List String :=
  let nm := dictGetPy list_obj "name" "Unknown"
  let lid := pyStrOpt (dictGet list_obj "id")
  s!"\n  - {nm} (ID: {lid})" ::
    (match cardsOf (dictGet list_obj "id") with
     | .error _ => ["    Error loading cards"]
     | .ok cards =>
        if cards.isEmpty then ["    No cards"]
        else
          let n := cards.length
          s!"    Cards ({n}):" :: cards.flatMap (fun c => boardCardLines (asDict c)))

/-- `server.get_board_resource`: the composite board view. Any failure of
the board or list fetch reaches the outer `except` and yields the one-line
error string; a per-list card-fetch failure is confined to that list's
block by `listBlock`. -/
def get_board_resource (board_id : String) (env : BoardEnv) : String :=
  match env.board with
  | .error e => s!"Error loading board {board_id}: {e}"
  | .ok board =>
    match env.lists with
    | .error e => s!"Error loading board {board_id}: {e}"
    | .ok lists =>
      let bn := dictGetPy board "name" "Unknown"
      let bu := dictGetPy board "url" "N/A"
      let bd := dictGetPy board "desc" "No description"
      let n := lists.length
      String.intercalate "\n"
        ([s!"Board: {bn}", s!"URL: {bu}", s!"Description: {bd}",
          s!"\nLists ({n}):"]
         ++ lists.flatMap (listBlock env.cardsOf))

/-- The lines `get_list_resource` appends for one card: the bullet line,
then a description line and a URL line when those fields are truthy. -/
def listViewCardLines (card : Dict) : List String :=
  let card_name := dictGetPy card "name" "Unknown"
  let card_id := dictGetPy card "id" "N/A"
  s!"\n  • {card_name} (ID: {card_id})" ::
    ((match dictGet card "desc" with
      | some v =>
         if v.truthy then
           let d := v.pyStr
           [s!"    Description: {d}"]
         else []
      | none => []) ++
     (match dictGet card "url" with
      | some v =>
         if v.truthy then
           let u := v.pyStr
           [s!"    URL: {u}"]
         else []
      | none => []))

/-- `server.get_list_resource`: the composite list view; a failed card
fetch yields the one-line error string. -/
def get_list_resource (list_id : String)
    (cards : Except String (List Value)) : String :=
  match cards with
  | .error e => s!"Error loading list {list_id}: {e}"
  | .ok cs =>
    let n := cs.length
    String.intercalate "\n"
      ([s!"List ID: {list_id}", s!"\nCards ({n}):"]
       ++ (if cs.isEmpty then ["  No cards in this list"]
           else cs.flatMap (fun c => listViewCardLines (asDict c))))

/-- `server.get_card_resource`: the composite card view; a failed card
fetch yields the one-line error string. -/
def get_card_resource (card_id : String) (card : Except String Dict) :
    String :=
  match card with
  | .error e => s!"Error loading card {card_id}: {e}"
  | .ok c =>
    let nm := dictGetPy c "name" "Unknown"
    let cid := dictGetPy c "id" "N/A"
    let cu := dictGetPy c "url" "N/A"
    let cd := dictGetPy c "desc" "No description"
    let lid := dictGetPy c "idList" "N/A"
    let bid := dictGetPy c "idBoard" "N/A"
    let due := dictGetPy c "due" "None"
    let labelNames :=
      (match dictGet c "labels" with
       | some (.list ls) => ls
       | _ => []).map (fun l => dictGetPy (asDict l) "name" "Unnamed")
    let lbls := String.intercalate ", " labelNames
    String.intercalate "\n"
      [s!"Card: {nm}", s!"ID: {cid}", s!"URL: {cu}", s!"Description: {cd}",
       s!"List ID: {lid}", s!"Board ID: {bid}", s!"Due Date: {due}",
       s!"Labels: {lbls}"]

end Server

/-!
## Helper lemmas about dictionary lookup
-/

/-- Lookup in an appended dictionary: the right side (the later bindings)
wins when it has the key. -/
theorem dictGet_append (a b : Dict) (k : String) :
    dictGet (a ++ b) k =
      match dictGet b k with
      | some v => some v
      | none => dictGet a k := by
  induction a with
  | nil =>
    simp only [List.nil_append]
    cases dictGet b k <;> simp [dictGet]
  | cons hd t ih =>
    cases hd with
    | mk k1 v1 =>
      simp only [List.cons_append, dictGet]
      cases h1 : dictGet b k <;> cases h2 : dictGet t k <;>
        rw [h1, h2] at ih <;> simp [dictGet, ih, h2]

/-- When the right side has no binding for the key, lookup falls through to
the left side. -/
theorem dictGet_append_none {a b : Dict} {k : String}
    (hb : dictGet b k = none) : dictGet (a ++ b) k = dictGet a k := by
  rw [dictGet_append, hb]

/-- When the right side binds the key, that binding wins. -/
theorem dictGet_append_some {a b : Dict} {k : String} {v : Value}
    (hb : dictGet b k = some v) : dictGet (a ++ b) k = some v := by
  rw [dictGet_append, hb]

/-- A truthiness-tested optional chunk never produces a different key. -/
theorem dictGet_strIf_ne {k2 k : String} (x : Option String) (h : k2 ≠ k) :
    dictGet (TrelloClient.strIf k2 x) k = none := by
  cases x with
  | none => rfl
  | some s =>
    by_cases hs : s.isEmpty <;>
      simp [TrelloClient.strIf, dictGet, hs, h]

/-- An `is not None`-tested optional string chunk never produces a
different key. -/
theorem dictGet_strIfSome_ne {k2 k : String} (x : Option String)
    (h : k2 ≠ k) : dictGet (TrelloClient.strIfSome k2 x) k = none := by
  cases x <;> simp [TrelloClient.strIfSome, dictGet, h]

/-- An `is not None`-tested optional boolean chunk never produces a
different key. -/
theorem dictGet_boolIfSome_ne {k2 k : String} (x : Option Bool)
    (h : k2 ≠ k) : dictGet (TrelloClient.boolIfSome k2 x) k = none := by
  cases x <;> simp [TrelloClient.boolIfSome, dictGet, h]

/-- An absent truthiness-tested input contributes nothing. -/
theorem dictGet_strIf_none (k k2 : String) :
    dictGet (TrelloClient.strIf k none) k2 = none := rfl

/-- An empty truthiness-tested input contributes nothing. -/
theorem dictGet_strIf_empty (k k2 : String) :
    dictGet (TrelloClient.strIf k (some "")) k2 = none := by
  simp [TrelloClient.strIf, dictGet]

/-- An absent `is not None`-tested string input contributes nothing. -/
theorem dictGet_strIfSome_none (k k2 : String) :
    dictGet (TrelloClient.strIfSome k none) k2 = none := rfl

/-- An absent `is not None`-tested boolean input contributes nothing. -/
theorem dictGet_boolIfSome_none (k k2 : String) :
    dictGet (TrelloClient.boolIfSome k none) k2 = none := rfl

/-!
## Claim theorems
-/

/-- **C10**: `set_card_due_date(card_id, d)` issues exactly the request of
`update_card(card_id, due=d)` with all other optional arguments omitted:
same method `PUT`, same endpoint `/cards/{card_id}`, identical parameter
dictionary `{"due": d}`; the two operations are interchangeable. -/
theorem set_due_date_equals_update_card_due (card_id d : String) :
    TrelloClient.set_card_due_date card_id d =
      TrelloClient.update_card card_id none none none (some d) none
    ∧ TrelloClient.set_card_due_date card_id d =
      { method := "PUT", endpoint := s!"/cards/{card_id}"
        params := [("due", Value.str d)] } :=
  ⟨rfl, rfl⟩

/-- **C4**: `clear_card_due_date(card_id)` issues a PUT to
`/cards/{card_id}` whose parameter dictionary binds `"due"` to an explicit
null, whereas `update_card(card_id)` with `due` omitted issues a PUT whose
parameter dictionary has no `"due"` key at all; the two parameter
dictionaries are distinct, so the requests are distinguishable. -/
theorem clear_due_null_vs_update_omitted (card_id : String) :
    TrelloClient.clear_card_due_date card_id =
      { method := "PUT", endpoint := s!"/cards/{card_id}"
        params := [("due", Value.null)] }
    ∧ dictGet (TrelloClient.clear_card_due_date card_id).params "due"
        = some .null
    ∧ (TrelloClient.update_card card_id none none none none none).method
        = "PUT"
    ∧ (TrelloClient.update_card card_id none none none none none).endpoint
        = s!"/cards/{card_id}"
    ∧ (TrelloClient.update_card card_id none none none none none).params
        = []
    ∧ dictGet
        (TrelloClient.update_card card_id none none none none none).params
        "due" = none :=
  ⟨rfl, rfl, rfl, rfl, rfl, rfl⟩

/-- **C3**: for every client operation and caller-supplied parameter
dictionary (including one holding its own `"key"` or `"token"` entries),
the outgoing request's query parameters carry the client's credentials
under `"key"` and `"token"`, the credential values win over caller-supplied
values for those keys, and every other caller-supplied parameter is
preserved; `_request` passes its parameters through `_add_auth`. -/
theorem auth_injection_overrides (api_key api_token : String)
    (params : Option Dict) (method endpoint : String)
    (world : TrelloClient.HttpResult) :
    dictGet (TrelloClient.«_add_auth» api_key api_token params) "key"
      = some (.str api_key)
    ∧ dictGet (TrelloClient.«_add_auth» api_key api_token params) "token"
      = some (.str api_token)
    ∧ (∀ k, k ≠ "key" → k ≠ "token" →
        dictGet (TrelloClient.«_add_auth» api_key api_token params) k
          = dictGet (params.getD []) k)
    ∧ (TrelloClient.«_request» api_key api_token method endpoint params
        world).1.params
      = TrelloClient.«_add_auth» api_key api_token params := by
  have hauth : ∀ k, k ≠ "key" → k ≠ "token" →
      dictGet [("key", Value.str api_key), ("token", Value.str api_token)] k
        = none := by
    intro k h1 h2
    simp [dictGet, Ne.symm h1, Ne.symm h2]
  have hkey : dictGet
      [("key", Value.str api_key), ("token", Value.str api_token)] "key"
        = some (.str api_key) := by simp [dictGet]
  have htok : dictGet
      [("key", Value.str api_key), ("token", Value.str api_token)] "token"
        = some (.str api_token) := by simp [dictGet]
  refine ⟨?_, ?_, ?_, ?_⟩
  · cases params with
    | none => exact hkey
    | some p =>
      by_cases hp : p.isEmpty
      · simp only [TrelloClient.«_add_auth», hp, if_pos]
        exact hkey
      · simp only [TrelloClient.«_add_auth», hp, if_neg, Bool.false_eq_true,
          not_false_iff]
        exact dictGet_append_some hkey
  · cases params with
    | none => exact htok
    | some p =>
      by_cases hp : p.isEmpty
      · simp only [TrelloClient.«_add_auth», hp, if_pos]
        exact htok
      · simp only [TrelloClient.«_add_auth», hp, if_neg, Bool.false_eq_true,
          not_false_iff]
        exact dictGet_append_some htok
  · intro k h1 h2
    cases params with
    | none => exact hauth k h1 h2
    | some p =>
      by_cases hp : p.isEmpty
      · rw [List.isEmpty_iff.mp hp]
        simp only [TrelloClient.«_add_auth», List.isEmpty_nil, if_pos]
        simpa [dictGet] using hauth k h1 h2
      · simp only [TrelloClient.«_add_auth», hp, if_neg,
          Bool.false_eq_true, not_false_iff, Option.getD]
        exact dictGet_append_none (hauth k h1 h2)
  · cases world with
    | transportError c => rfl
    | resp status body =>
      simp only [TrelloClient.«_request»]
      split <;> rfl

/-- Witness for `auth_injection_overrides`: a caller-supplied dictionary
that carries its own `"token"` entry and another parameter. -/
theorem auth_injection_overrides_instance :
    dictGet (TrelloClient.«_add_auth» "K" "T"
        (some [("fields", .str "name"), ("token", .str "evil")])) "token"
      = some (.str "T")
    ∧ dictGet (TrelloClient.«_add_auth» "K" "T"
        (some [("fields", .str "name"), ("token", .str "evil")])) "fields"
      = some (.str "name") := by
  have h := auth_injection_overrides "K" "T"
    (some [("fields", .str "name"), ("token", .str "evil")]) "GET" "/x"
    (.resp 200 .null)
  exact ⟨h.2.1, (h.2.2.1 "fields" (by decide) (by decide)).trans rfl⟩

/-- **C2**: `_request` classifies every non-2xx response into a typed
failure — 401 invalid credentials, 404 not-found carrying the endpoint,
429 rate-limit with guidance text, any other non-2xx the generic API
failure carrying the numeric status — and every transport-level error into
the distinct network failure carrying the cause text. -/
theorem request_failure_classification (api_key api_token method endpoint
    cause : String) (params : Option Dict) (status : Nat) (body : Value) :
    ((TrelloClient.«_request» api_key api_token method endpoint params
        (.transportError cause)).2
      = .error (.networkError cause)
     ∧ (TrelloClient.RequestError.networkError cause).message
        = "Network error: " ++ cause)
    ∧ (¬ (200 ≤ status ∧ status < 300) →
        (TrelloClient.«_request» api_key api_token method endpoint params
          (.resp status body)).2
        = .error (TrelloClient.classifyStatus status endpoint))
    ∧ (TrelloClient.classifyStatus 401 endpoint = .invalidCredentials
       ∧ TrelloClient.RequestError.invalidCredentials.message
          = "Invalid Trello API credentials")
    ∧ (TrelloClient.classifyStatus 404 endpoint = .notFound endpoint
       ∧ (TrelloClient.RequestError.notFound endpoint).message
          = "Resource not found: " ++ endpoint)
    ∧ (TrelloClient.classifyStatus 429 endpoint = .rateLimit
       ∧ TrelloClient.RequestError.rateLimit.message
          = "Trello API rate limit exceeded. Consider using webhooks for frequent updates.")
    ∧ (status ≠ 401 → status ≠ 404 → status ≠ 429 →
        TrelloClient.classifyStatus status endpoint = .apiError status
        ∧ (TrelloClient.RequestError.apiError status).message
          = "Trello API error: " ++ toString status) := by
  refine ⟨⟨rfl, rfl⟩, ?_, ⟨rfl, rfl⟩, ⟨rfl, rfl⟩, ⟨rfl, rfl⟩, ?_⟩
  · intro h
    simp only [TrelloClient.«_request», if_neg h]
  · intro h1 h2 h3
    refine ⟨?_, rfl⟩
    simp [TrelloClient.classifyStatus, h1, h2, h3]

/-- Witness for `request_failure_classification`: a 500 response is neither
2xx nor one of the dedicated statuses, so it raises the generic API
failure. -/
theorem request_failure_classification_instance :
    (TrelloClient.«_request» "K" "T" "GET" "/boards/b1" none
        (.resp 500 .null)).2
      = .error (TrelloClient.classifyStatus 500 "/boards/b1")
    ∧ TrelloClient.classifyStatus 500 "/boards/b1" = .apiError 500 := by
  have h := request_failure_classification "K" "T" "GET" "/boards/b1" "x"
    none 500 .null
  exact ⟨h.2.1 (by decide),
    (h.2.2.2.2.2 (by decide) (by decide) (by decide)).1⟩

/-- **C1**: every facade tool operation converts a failure of the
underlying client call (exception message `e`) into a structured object
carrying `e` under `"error"` together with the identifying parameters of
the attempted operation, never re-raising; every collection-returning tool
operation (`list_boards`, `get_board_lists`, `list_cards`,
`get_card_checklists`, `get_checklist_items`, `get_board_labels`,
`get_card_labels`, `get_card_attachments`) yields a single-element list
holding that structured object. -/
theorem facade_wraps_failures (e bid lid cid chid item lbl aid nm url
    fpath opath due : String) (ids : List String) :
    Server.list_boards (.error e) = [.dict [("error", .str e)]]
    ∧ Server.get_board bid (.error e)
      = .dict [("error", .str e), ("board_id", .str bid)]
    ∧ Server.create_board nm (.error e)
      = .dict [("error", .str e), ("name", .str nm)]
    ∧ Server.get_board_lists bid (.error e)
      = [.dict [("error", .str e), ("board_id", .str bid)]]
    ∧ Server.create_list bid nm (.error e)
      = .dict [("error", .str e), ("board_id", .str bid), ("name", .str nm)]
    ∧ Server.archive_list lid (.error e)
      = .dict [("error", .str e), ("list_id", .str lid)]
    ∧ Server.list_cards lid (.error e)
      = [.dict [("error", .str e), ("list_id", .str lid)]]
    ∧ Server.get_card cid (.error e)
      = .dict [("error", .str e), ("card_id", .str cid)]
    ∧ Server.create_card lid nm (.error e)
      = .dict [("error", .str e), ("list_id", .str lid), ("name", .str nm)]
    ∧ Server.update_card cid (.error e)
      = .dict [("error", .str e), ("card_id", .str cid)]
    ∧ Server.delete_card cid (.error e)
      = .dict [("error", .str e), ("card_id", .str cid)]
    ∧ Server.move_card cid lid (.error e)
      = .dict [("error", .str e), ("card_id", .str cid),
          ("list_id", .str lid)]
    ∧ Server.get_card_checklists cid (.error e)
      = [.dict [("error", .str e), ("card_id", .str cid)]]
    ∧ Server.create_checklist cid nm (.error e)
      = .dict [("error", .str e), ("card_id", .str cid), ("name", .str nm)]
    ∧ Server.get_checklist chid (.error e)
      = .dict [("error", .str e), ("checklist_id", .str chid)]
    ∧ Server.update_checklist chid (.error e)
      = .dict [("error", .str e), ("checklist_id", .str chid)]
    ∧ Server.delete_checklist chid (.error e)
      = .dict [("error", .str e), ("checklist_id", .str chid)]
    ∧ Server.get_checklist_items chid (.error e)
      = [.dict [("error", .str e), ("checklist_id", .str chid)]]
    ∧ Server.add_checklist_item chid nm (.error e)
      = .dict [("error", .str e), ("checklist_id", .str chid),
          ("name", .str nm)]
    ∧ Server.update_checklist_item cid item (.error e)
      = .dict [("error", .str e), ("card_id", .str cid),
          ("checklist_item_id", .str item)]
    ∧ Server.delete_checklist_item chid item (.error e)
      = .dict [("error", .str e), ("checklist_id", .str chid),
          ("checklist_item_id", .str item)]
    ∧ Server.get_board_labels bid (.error e)
      = [.dict [("error", .str e), ("board_id", .str bid)]]
    ∧ Server.create_label bid nm (.error e)
      = .dict [("error", .str e), ("board_id", .str bid), ("name", .str nm)]
    ∧ Server.update_label lbl (.error e)
      = .dict [("error", .str e), ("label_id", .str lbl)]
    ∧ Server.delete_label lbl (.error e)
      = .dict [("error", .str e), ("label_id", .str lbl)]
    ∧ Server.get_card_labels cid (.error e)
      = [.dict [("error", .str e), ("card_id", .str cid)]]
    ∧ Server.add_label_to_card cid lbl (.error e)
      = .dict [("error", .str e), ("card_id", .str cid),
          ("label_id", .str lbl)]
    ∧ Server.remove_label_from_card cid lbl (.error e)
      = .dict [("error", .str e), ("card_id", .str cid),
          ("label_id", .str lbl)]
    ∧ Server.set_card_labels cid ids (.error e)
      = .dict [("error", .str e), ("card_id", .str cid),
          ("label_ids", .list (ids.map .str))]
    ∧ Server.set_card_due_date cid due (.error e)
      = .dict [("error", .str e), ("card_id", .str cid),
          ("due_date", .str due)]
    ∧ Server.mark_due_date_complete cid (.error e)
      = .dict [("error", .str e), ("card_id", .str cid)]
    ∧ Server.clear_card_due_date cid (.error e)
      = .dict [("error", .str e), ("card_id", .str cid)]
    ∧ Server.get_card_attachments cid (.error e)
      = [.dict [("error", .str e), ("card_id", .str cid)]]
    ∧ Server.get_attachment cid aid (.error e)
      = .dict [("error", .str e), ("card_id", .str cid),
          ("attachment_id", .str aid)]
    ∧ Server.add_attachment_url cid url (.error e)
      = .dict [("error", .str e), ("card_id", .str cid), ("url", .str url)]
    ∧ Server.add_attachment_file cid fpath (.error e)
      = .dict [("error", .str e), ("card_id", .str cid),
          ("file_path", .str fpath)]
    ∧ Server.download_attachment cid aid opath (.error e)
      = .dict [("error", .str e), ("card_id", .str cid),
          ("attachment_id", .str aid), ("output_path", .str opath)]
    ∧ Server.delete_attachment cid aid (.error e)
      = .dict [("error", .str e), ("card_id", .str cid),
          ("attachment_id", .str aid)] :=
  ⟨rfl, rfl, rfl, rfl, rfl, rfl, rfl, rfl, rfl, rfl, rfl, rfl, rfl, rfl,
   rfl, rfl, rfl, rfl, rfl, rfl, rfl, rfl, rfl, rfl, rfl, rfl, rfl, rfl,
   rfl, rfl, rfl, rfl, rfl, rfl, rfl, rfl, rfl, rfl⟩

/-- **C5** (counterexample): `delete_card` does NOT return the client's
result verbatim on success — it wraps it in a success object. -/
theorem delete_card_wraps_success :
    Server.delete_card "c1" (.ok (Value.dict []))
      = .dict [("success", .bool true), ("card_id", .str "c1"),
          ("result", .dict [])]
    ∧ Value.dict [("success", .bool true), ("card_id", .str "c1"),
        ("result", .dict [])] ≠ Value.dict [] :=
  ⟨rfl, by simp⟩

/-- **C5** (amended): every facade tool operation except `delete_card` and
`delete_attachment` returns the client's result verbatim on success; those
two wrap the client result in a
`{"success": True, ..., "result": result}` object. -/
theorem facade_success_verbatim_except_deletes (bid lid cid chid item lbl
    aid nm url fpath opath due : String) (ids : List String) (v : Value)
    (vs : List Value) :
    Server.list_boards (.ok vs) = vs
    ∧ Server.get_board bid (.ok v) = v
    ∧ Server.create_board nm (.ok v) = v
    ∧ Server.get_board_lists bid (.ok vs) = vs
    ∧ Server.create_list bid nm (.ok v) = v
    ∧ Server.archive_list lid (.ok v) = v
    ∧ Server.list_cards lid (.ok vs) = vs
    ∧ Server.get_card cid (.ok v) = v
    ∧ Server.create_card lid nm (.ok v) = v
    ∧ Server.update_card cid (.ok v) = v
    ∧ Server.move_card cid lid (.ok v) = v
    ∧ Server.get_card_checklists cid (.ok vs) = vs
    ∧ Server.create_checklist cid nm (.ok v) = v
    ∧ Server.get_checklist chid (.ok v) = v
    ∧ Server.update_checklist chid (.ok v) = v
    ∧ Server.delete_checklist chid (.ok v) = v
    ∧ Server.get_checklist_items chid (.ok vs) = vs
    ∧ Server.add_checklist_item chid nm (.ok v) = v
    ∧ Server.update_checklist_item cid item (.ok v) = v
    ∧ Server.delete_checklist_item chid item (.ok v) = v
    ∧ Server.get_board_labels bid (.ok vs) = vs
    ∧ Server.create_label bid nm (.ok v) = v
    ∧ Server.update_label lbl (.ok v) = v
    ∧ Server.delete_label lbl (.ok v) = v
    ∧ Server.get_card_labels cid (.ok vs) = vs
    ∧ Server.add_label_to_card cid lbl (.ok v) = v
    ∧ Server.remove_label_from_card cid lbl (.ok v) = v
    ∧ Server.set_card_labels cid ids (.ok v) = v
    ∧ Server.set_card_due_date cid due (.ok v) = v
    ∧ Server.mark_due_date_complete cid (.ok v) = v
    ∧ Server.clear_card_due_date cid (.ok v) = v
    ∧ Server.get_card_attachments cid (.ok vs) = vs
    ∧ Server.get_attachment cid aid (.ok v) = v
    ∧ Server.add_attachment_url cid url (.ok v) = v
    ∧ Server.add_attachment_file cid fpath (.ok v) = v
    ∧ Server.download_attachment cid aid opath (.ok v) = v
    ∧ Server.delete_card cid (.ok v)
      = .dict [("success", .bool true), ("card_id", .str cid),
          ("result", v)]
    ∧ Server.delete_attachment cid aid (.ok v)
      = .dict [("success", .bool true), ("card_id", .str cid),
          ("attachment_id", .str aid), ("result", v)] :=
  ⟨rfl, rfl, rfl, rfl, rfl, rfl, rfl, rfl, rfl, rfl, rfl, rfl, rfl, rfl,
   rfl, rfl, rfl, rfl, rfl, rfl, rfl, rfl, rfl, rfl, rfl, rfl, rfl, rfl,
   rfl, rfl, rfl, rfl, rfl, rfl, rfl, rfl, rfl, rfl⟩

/-- **C6** (counterexample): `update_label` with an explicitly empty name
string sends the `name` parameter bound to an empty value instead of
omitting it (its guard is `is not None`, not truthiness). -/
theorem update_label_sends_empty_name :
    (TrelloClient.update_label "lbl1" (some "") none).params
      = [("name", Value.str "")]
    ∧ dictGet (TrelloClient.update_label "lbl1" (some "") none).params
        "name" = some (.str "")
    ∧ some (Value.str "") ≠ (none : Option Value) :=
  ⟨rfl, rfl, by simp⟩

/-- **C6** (amended): the omit-when-absent-or-empty shaping rule holds for
every truthiness-tested optional input (`create_board.desc`,
`create_list.pos`, `create_card.desc/pos/due`,
`update_card.name/desc/list_id`, `move_card.pos`, `create_checklist`'s
name and `pos`, `update_checklist.name/pos`, `add_checklist_item.pos`,
`update_checklist_item.name/state/pos`, `add_attachment_url.name`); inputs
guarded only by `is not None` (`update_card.due`, `update_card.due_complete`,
`add_checklist_item.checked`, `create_label.color`, `update_label.name` and
`update_label.color`) are omitted when absent, but an explicitly supplied
empty string is sent as an empty value; `clear_card_due_date` sends the
explicit-null `due` parameter. -/
theorem optional_param_omission (bid lid cid chid item lbl nm url : String)
    (desc pos due name state color lst : Option String)
    (dc checked : Option Bool) :
    dictGet (TrelloClient.create_board nm none).params "desc" = none
    ∧ dictGet (TrelloClient.create_board nm (some "")).params "desc" = none
    ∧ dictGet (TrelloClient.create_list bid nm none).params "pos" = none
    ∧ dictGet (TrelloClient.create_list bid nm (some "")).params "pos"
        = none
    ∧ dictGet (TrelloClient.create_card lid nm none pos due).params "desc"
        = none
    ∧ dictGet (TrelloClient.create_card lid nm (some "") pos due).params
        "desc" = none
    ∧ dictGet (TrelloClient.create_card lid nm desc none due).params "pos"
        = none
    ∧ dictGet (TrelloClient.create_card lid nm desc (some "") due).params
        "pos" = none
    ∧ dictGet (TrelloClient.create_card lid nm desc pos none).params "due"
        = none
    ∧ dictGet (TrelloClient.create_card lid nm desc pos (some "")).params
        "due" = none
    ∧ dictGet (TrelloClient.update_card cid none desc lst due dc).params
        "name" = none
    ∧ dictGet
        (TrelloClient.update_card cid (some "") desc lst due dc).params
        "name" = none
    ∧ dictGet (TrelloClient.update_card cid name none lst due dc).params
        "desc" = none
    ∧ dictGet
        (TrelloClient.update_card cid name (some "") lst due dc).params
        "desc" = none
    ∧ dictGet (TrelloClient.update_card cid name desc none due dc).params
        "idList" = none
    ∧ dictGet
        (TrelloClient.update_card cid name desc (some "") due dc).params
        "idList" = none
    ∧ dictGet (TrelloClient.update_card cid name desc lst none dc).params
        "due" = none
    ∧ dictGet
        (TrelloClient.update_card cid name desc lst (some "") dc).params
        "due" = some (.str "")
    ∧ dictGet
        (TrelloClient.update_card cid name desc lst due none).params
        "dueComplete" = none
    ∧ dictGet (TrelloClient.move_card cid lid none).params "pos" = none
    ∧ dictGet (TrelloClient.move_card cid lid (some "")).params "pos"
        = none
    ∧ dictGet (TrelloClient.create_checklist cid "" pos).params "name"
        = none
    ∧ dictGet (TrelloClient.create_checklist cid nm none).params "pos"
        = none
    ∧ dictGet (TrelloClient.create_checklist cid nm (some "")).params
        "pos" = none
    ∧ dictGet (TrelloClient.update_checklist chid none pos).params "name"
        = none
    ∧ dictGet (TrelloClient.update_checklist chid (some "") pos).params
        "name" = none
    ∧ dictGet (TrelloClient.update_checklist chid name none).params "pos"
        = none
    ∧ dictGet (TrelloClient.update_checklist chid name (some "")).params
        "pos" = none
    ∧ dictGet (TrelloClient.add_checklist_item chid nm none pos).params
        "checked" = none
    ∧ dictGet
        (TrelloClient.add_checklist_item chid nm checked none).params
        "pos" = none
    ∧ dictGet
        (TrelloClient.add_checklist_item chid nm checked (some "")).params
        "pos" = none
    ∧ dictGet
        (TrelloClient.update_checklist_item cid item none state pos).params
        "name" = none
    ∧ dictGet (TrelloClient.update_checklist_item cid item (some "") state
        pos).params "name" = none
    ∧ dictGet
        (TrelloClient.update_checklist_item cid item name none pos).params
        "state" = none
    ∧ dictGet (TrelloClient.update_checklist_item cid item name (some "")
        pos).params "state" = none
    ∧ dictGet
        (TrelloClient.update_checklist_item cid item name state none).params
        "pos" = none
    ∧ dictGet (TrelloClient.update_checklist_item cid item name state
        (some "")).params "pos" = none
    ∧ dictGet (TrelloClient.create_label bid nm none).params "color" = none
    ∧ dictGet (TrelloClient.create_label bid nm (some "")).params "color"
        = some (.str "")
    ∧ dictGet (TrelloClient.update_label lbl none color).params "name"
        = none
    ∧ dictGet (TrelloClient.update_label lbl (some "") color).params
        "name" = some (.str "")
    ∧ dictGet (TrelloClient.update_label lbl name none).params "color"
        = none
    ∧ dictGet (TrelloClient.update_label lbl name (some "")).params
        "color" = some (.str "")
    ∧ dictGet (TrelloClient.add_attachment_url cid url none).params "name"
        = none
    ∧ dictGet (TrelloClient.add_attachment_url cid url (some "")).params
        "name" = none
    ∧ dictGet (TrelloClient.clear_card_due_date cid).params "due"
        = some .null := by
  refine ⟨?_, ?_, ?_, ?_, ?_, ?_, ?_, ?_, ?_, ?_, ?_, ?_, ?_, ?_, ?_, ?_,
    ?_, ?_, ?_, ?_, ?_, ?_, ?_, ?_, ?_, ?_, ?_, ?_, ?_, ?_, ?_, ?_, ?_,
    ?_, ?_, ?_, ?_, ?_, ?_, ?_, ?_, ?_, ?_, ?_, ?_, ?_⟩
  · simp only [TrelloClient.create_board]
    rw [dictGet_append_none (dictGet_strIf_none _ _)]
    simp [dictGet]
  · simp only [TrelloClient.create_board]
    rw [dictGet_append_none (dictGet_strIf_empty _ _)]
    simp [dictGet]
  · simp only [TrelloClient.create_list]
    rw [dictGet_append_none (dictGet_strIf_none _ _)]
    simp [dictGet]
  · simp only [TrelloClient.create_list]
    rw [dictGet_append_none (dictGet_strIf_empty _ _)]
    simp [dictGet]
  · simp only [TrelloClient.create_card]
    rw [dictGet_append_none (dictGet_strIf_ne _ (by decide)),
        dictGet_append_none (dictGet_strIf_ne _ (by decide)),
        dictGet_append_none (dictGet_strIf_none _ _)]
    simp [dictGet]
  · simp only [TrelloClient.create_card]
    rw [dictGet_append_none (dictGet_strIf_ne _ (by decide)),
        dictGet_append_none (dictGet_strIf_ne _ (by decide)),
        dictGet_append_none (dictGet_strIf_empty _ _)]
    simp [dictGet]
  · simp only [TrelloClient.create_card]
    rw [dictGet_append_none (dictGet_strIf_ne _ (by decide)),
        dictGet_append_none (dictGet_strIf_none _ _),
        dictGet_append_none (dictGet_strIf_ne _ (by decide))]
    simp [dictGet]
  · simp only [TrelloClient.create_card]
    rw [dictGet_append_none (dictGet_strIf_ne _ (by decide)),
        dictGet_append_none (dictGet_strIf_empty _ _),
        dictGet_append_none (dictGet_strIf_ne _ (by decide))]
    simp [dictGet]
  · simp only [TrelloClient.create_card]
    rw [dictGet_append_none (dictGet_strIf_none _ _),
        dictGet_append_none (dictGet_strIf_ne _ (by decide)),
        dictGet_append_none (dictGet_strIf_ne _ (by decide))]
    simp [dictGet]
  · simp only [TrelloClient.create_card]
    rw [dictGet_append_none (dictGet_strIf_empty _ _),
        dictGet_append_none (dictGet_strIf_ne _ (by decide)),
        dictGet_append_none (dictGet_strIf_ne _ (by decide))]
    simp [dictGet]
  · simp only [TrelloClient.update_card]
    rw [dictGet_append_none (dictGet_boolIfSome_ne _ (by decide)),
        dictGet_append_none (dictGet_strIfSome_ne _ (by decide)),
        dictGet_append_none (dictGet_strIf_ne _ (by decide)),
        dictGet_append_none (dictGet_strIf_ne _ (by decide))]
    exact dictGet_strIf_none _ _
  · simp only [TrelloClient.update_card]
    rw [dictGet_append_none (dictGet_boolIfSome_ne _ (by decide)),
        dictGet_append_none (dictGet_strIfSome_ne _ (by decide)),
        dictGet_append_none (dictGet_strIf_ne _ (by decide)),
        dictGet_append_none (dictGet_strIf_ne _ (by decide))]
    exact dictGet_strIf_empty _ _
  · simp only [TrelloClient.update_card]
    rw [dictGet_append_none (dictGet_boolIfSome_ne _ (by decide)),
        dictGet_append_none (dictGet_strIfSome_ne _ (by decide)),
        dictGet_append_none (dictGet_strIf_ne _ (by decide)),
        dictGet_append_none (dictGet_strIf_none _ _)]
    exact dictGet_strIf_ne _ (by decide)
  · simp only [TrelloClient.update_card]
    rw [dictGet_append_none (dictGet_boolIfSome_ne _ (by decide)),
        dictGet_append_none (dictGet_strIfSome_ne _ (by decide)),
        dictGet_append_none (dictGet_strIf_ne _ (by decide)),
        dictGet_append_none (dictGet_strIf_empty _ _)]
    exact dictGet_strIf_ne _ (by decide)
  · simp only [TrelloClient.update_card]
    rw [dictGet_append_none (dictGet_boolIfSome_ne _ (by decide)),
        dictGet_append_none (dictGet_strIfSome_ne _ (by decide)),
        dictGet_append_none (dictGet_strIf_none _ _),
        dictGet_append_none (dictGet_strIf_ne _ (by decide))]
    exact dictGet_strIf_ne _ (by decide)
  · simp only [TrelloClient.update_card]
    rw [dictGet_append_none (dictGet_boolIfSome_ne _ (by decide)),
        dictGet_append_none (dictGet_strIfSome_ne _ (by decide)),
        dictGet_append_none (dictGet_strIf_empty _ _),
        dictGet_append_none (dictGet_strIf_ne _ (by decide))]
    exact dictGet_strIf_ne _ (by decide)
  · simp only [TrelloClient.update_card]
    rw [dictGet_append_none (dictGet_boolIfSome_ne _ (by decide)),
        dictGet_append_none (dictGet_strIfSome_none _ _),
        dictGet_append_none (dictGet_strIf_ne _ (by decide)),
        dictGet_append_none (dictGet_strIf_ne _ (by decide))]
    exact dictGet_strIf_ne _ (by decide)
  · simp only [TrelloClient.update_card]
    rw [dictGet_append_none (dictGet_boolIfSome_ne _ (by decide))]
    exact dictGet_append_some rfl
  · simp only [TrelloClient.update_card]
    rw [dictGet_append_none (dictGet_boolIfSome_none _ _),
        dictGet_append_none (dictGet_strIfSome_ne _ (by decide)),
        dictGet_append_none (dictGet_strIf_ne _ (by decide)),
        dictGet_append_none (dictGet_strIf_ne _ (by decide))]
    exact dictGet_strIf_ne _ (by decide)
  · simp only [TrelloClient.move_card]
    rw [dictGet_append_none (dictGet_strIf_none _ _)]
    simp [dictGet]
  · simp only [TrelloClient.move_card]
    rw [dictGet_append_none (dictGet_strIf_empty _ _)]
    simp [dictGet]
  · simp only [TrelloClient.create_checklist]
    rw [dictGet_append_none (dictGet_strIf_ne _ (by decide))]
    simp [dictGet]
  · simp only [TrelloClient.create_checklist]
    rw [dictGet_append_none (dictGet_strIf_none _ _)]
    have h : dictGet
        (if nm.isEmpty = true then [] else [("name", Value.str nm)]) "pos"
          = none := by
      split <;> simp [dictGet]
    rw [dictGet_append_none h]
    simp [dictGet]
  · simp only [TrelloClient.create_checklist]
    rw [dictGet_append_none (dictGet_strIf_empty _ _)]
    have h : dictGet
        (if nm.isEmpty = true then [] else [("name", Value.str nm)]) "pos"
          = none := by
      split <;> simp [dictGet]
    rw [dictGet_append_none h]
    simp [dictGet]
  · simp only [TrelloClient.update_checklist]
    rw [dictGet_append_none (dictGet_strIf_ne _ (by decide))]
    exact dictGet_strIf_none _ _
  · simp only [TrelloClient.update_checklist]
    rw [dictGet_append_none (dictGet_strIf_ne _ (by decide))]
    exact dictGet_strIf_empty _ _
  · simp only [TrelloClient.update_checklist]
    rw [dictGet_append_none (dictGet_strIf_none _ _)]
    exact dictGet_strIf_ne _ (by decide)
  · simp only [TrelloClient.update_checklist]
    rw [dictGet_append_none (dictGet_strIf_empty _ _)]
    exact dictGet_strIf_ne _ (by decide)
  · simp only [TrelloClient.add_checklist_item]
    rw [dictGet_append_none (dictGet_strIf_ne _ (by decide))]
    simp [dictGet]
  · simp only [TrelloClient.add_checklist_item]
    rw [dictGet_append_none (dictGet_strIf_none _ _)]
    have h : dictGet
        (match checked with
         | some b => [("checked", Value.str (if b then "true" else "false"))]
         | none => []) "pos" = none := by
      cases checked <;> simp [dictGet]
    rw [dictGet_append_none h]
    simp [dictGet]
  · simp only [TrelloClient.add_checklist_item]
    rw [dictGet_append_none (dictGet_strIf_empty _ _)]
    have h : dictGet
        (match checked with
         | some b => [("checked", Value.str (if b then "true" else "false"))]
         | none => []) "pos" = none := by
      cases checked <;> simp [dictGet]
    rw [dictGet_append_none h]
    simp [dictGet]
  · simp only [TrelloClient.update_checklist_item]
    rw [dictGet_append_none (dictGet_strIf_ne _ (by decide)),
        dictGet_append_none (dictGet_strIf_ne _ (by decide))]
    exact dictGet_strIf_none _ _
  · simp only [TrelloClient.update_checklist_item]
    rw [dictGet_append_none (dictGet_strIf_ne _ (by decide)),
        dictGet_append_none (dictGet_strIf_ne _ (by decide))]
    exact dictGet_strIf_empty _ _
  · simp only [TrelloClient.update_checklist_item]
    rw [dictGet_append_none (dictGet_strIf_ne _ (by decide)),
        dictGet_append_none (dictGet_strIf_none _ _)]
    exact dictGet_strIf_ne _ (by decide)
  · simp only [TrelloClient.update_checklist_item]
    rw [dictGet_append_none (dictGet_strIf_ne _ (by decide)),
        dictGet_append_none (dictGet_strIf_empty _ _)]
    exact dictGet_strIf_ne _ (by decide)
  · simp only [TrelloClient.update_checklist_item]
    rw [dictGet_append_none (dictGet_strIf_none _ _),
        dictGet_append_none (dictGet_strIf_ne _ (by decide))]
    exact dictGet_strIf_ne _ (by decide)
  · simp only [TrelloClient.update_checklist_item]
    rw [dictGet_append_none (dictGet_strIf_empty _ _),
        dictGet_append_none (dictGet_strIf_ne _ (by decide))]
    exact dictGet_strIf_ne _ (by decide)
  · simp only [TrelloClient.create_label]
    rw [dictGet_append_none (dictGet_strIfSome_none _ _)]
    simp [dictGet]
  · simp only [TrelloClient.create_label]
    exact dictGet_append_some rfl
  · simp only [TrelloClient.update_label]
    rw [dictGet_append_none (dictGet_strIfSome_ne _ (by decide))]
    exact dictGet_strIfSome_none _ _
  · simp only [TrelloClient.update_label]
    rw [dictGet_append_none (dictGet_strIfSome_ne _ (by decide))]
    rfl
  · simp only [TrelloClient.update_label]
    rw [dictGet_append_none (dictGet_strIfSome_none _ _)]
    exact dictGet_strIfSome_ne _ (by decide)
  · simp only [TrelloClient.update_label]
    exact dictGet_append_some rfl
  · simp only [TrelloClient.add_attachment_url]
    rw [dictGet_append_none (dictGet_strIf_none _ _)]
    simp [dictGet]
  · simp only [TrelloClient.add_attachment_url]
    rw [dictGet_append_none (dictGet_strIf_empty _ _)]
    simp [dictGet]
  · rfl

/-- **C8**: `add_attachment_file` raises a `FileNotFoundError` naming the
path before any network activity when the local file does not exist (the
`fileNotFound` outcome carries no request); when it exists, the upload uses
the caller-supplied name when a non-empty one is given and the file's base
name otherwise (including for an explicitly empty caller name, Python's
`or` fallback). -/
theorem add_attachment_file_contract (api_key api_token cid fpath
    n : String) (name : Option String) :
    TrelloClient.add_attachment_file api_key api_token cid fpath name false
      = .fileNotFound s!"File not found: {fpath}"
    ∧ (n ≠ "" →
        TrelloClient.add_attachment_file api_key api_token cid fpath
          (some n) true
        = .post (TrelloClient.BASE_URL ++ s!"/cards/{cid}/attachments")
            [("key", .str api_key), ("token", .str api_token)] n)
    ∧ TrelloClient.add_attachment_file api_key api_token cid fpath none
        true
      = .post (TrelloClient.BASE_URL ++ s!"/cards/{cid}/attachments")
          [("key", .str api_key), ("token", .str api_token)]
          (TrelloClient.basename fpath)
    ∧ TrelloClient.add_attachment_file api_key api_token cid fpath
        (some "") true
      = .post (TrelloClient.BASE_URL ++ s!"/cards/{cid}/attachments")
          [("key", .str api_key), ("token", .str api_token)]
          (TrelloClient.basename fpath) := by
  refine ⟨rfl, ?_, rfl, ?_⟩
  · intro h
    have he : ¬ (n.isEmpty = true) := by
      simp [String.isEmpty_iff, h]
    simp [TrelloClient.add_attachment_file, TrelloClient.«_add_auth», he]
  · have he : ("" : String).isEmpty = true := by decide
    simp [TrelloClient.add_attachment_file, TrelloClient.«_add_auth», he]

/-- Witness for `add_attachment_file_contract`: an existing file uploaded
under a non-empty caller-supplied name. -/
theorem add_attachment_file_contract_instance :
    TrelloClient.add_attachment_file "K" "T" "c1" "/tmp/a/b.png"
        (some "photo.png") true
      = .post "https://api.trello.com/1/cards/c1/attachments"
          [("key", .str "K"), ("token", .str "T")] "photo.png" := by
  have h := (add_attachment_file_contract "K" "T" "c1" "/tmp/a/b.png"
    "photo.png" (some "photo.png")).2.1 (by decide)
  exact h

/-- **C7**: `download_attachment` fetches the attachment metadata first (a
metadata failure propagates with no download GET issued), resolves the
filename preferring the stored `fileName` over `name` over the literal
`"download"`, GETs the authenticated
`/cards/{card_id}/attachments/{attachment_id}/download/{filename}`
endpoint, writes the raw response body to the output path, and returns a
result whose `size` is the number of bytes written, whose `name` is the
resolved filename, and whose `path` is the supplied output path. -/
theorem download_attachment_contract (api_key api_token cid aid opath fn
    s : String) (att : Dict) (status : Nat) (content : List Nat)
    (env : TrelloClient.DownloadEnv) (e : TrelloClient.RequestError) :
    (env.metadata = .error e →
      TrelloClient.download_attachment api_key api_token cid aid opath env
        = { get := none, written := none, result := .error e.message })
    ∧ (env.metadata = .ok att → env.download = .resp status content →
       (200 ≤ status ∧ status < 300) → env.writeError = none →
       fn = TrelloClient.resolveFilename att →
        TrelloClient.download_attachment api_key api_token cid aid opath
          env
        = { get := some
              { method := "GET"
                url := TrelloClient.BASE_URL
                  ++ s!"/cards/{cid}/attachments/{aid}/download/{fn}"
                params := [("key", .str api_key), ("token", .str api_token)] }
            written := some content
            result := .ok (.dict
              [("success", .bool true),
               ("path", .str opath),
               ("size", .num content.length),
               ("name", .str fn),
               ("attachment_id", .str aid)]) })
    ∧ (dictGet att "fileName" = some (.str s) → s ≠ "" →
        TrelloClient.resolveFilename att = s)
    ∧ (dictGet att "fileName" = none → dictGet att "name" = some (.str s) →
        s ≠ "" → TrelloClient.resolveFilename att = s)
    ∧ (dictGet att "fileName" = none → dictGet att "name" = none →
        TrelloClient.resolveFilename att = "download") := by
  obtain ⟨md, dl, we⟩ := env
  refine ⟨?_, ?_, ?_, ?_, ?_⟩
  · intro h
    simp only at h
    subst h
    rfl
  · intro h1 h2 h3 h4 h5
    simp only at h1 h2 h4
    subst h1
    subst h2
    subst h4
    subst h5
    simp only [TrelloClient.download_attachment, if_pos h3]
    rfl
  · intro h hs
    have he : s.isEmpty = false :=
      Bool.eq_false_iff.mpr (fun hb => hs ((String.isEmpty_iff _).mp hb))
    simp [TrelloClient.resolveFilename, h, Value.truthy, he, Value.pyStr]
  · intro h1 h2 hs
    have he : s.isEmpty = false :=
      Bool.eq_false_iff.mpr (fun hb => hs ((String.isEmpty_iff _).mp hb))
    simp [TrelloClient.resolveFilename, h1, h2, Value.truthy, he,
      Value.pyStr]
  · intro h1 h2
    simp [TrelloClient.resolveFilename, h1, h2]

/-- Witness for `download_attachment_contract`: metadata carrying a stored
file name, a 200 response of two bytes, and a successful local write. -/
theorem download_attachment_contract_instance :
    TrelloClient.download_attachment "K" "T" "c1" "a1" "/out"
        ⟨.ok [("fileName", .str "report.pdf")], .resp 200 [7, 9], none⟩
      = { get := some
            { method := "GET"
              url := "https://api.trello.com/1/cards/c1/attachments/a1/download/report.pdf"
              params := [("key", .str "K"), ("token", .str "T")] }
          written := some [7, 9]
          result := .ok (.dict
            [("success", .bool true), ("path", .str "/out"),
             ("size", .num 2), ("name", .str "report.pdf"),
             ("attachment_id", .str "a1")]) } := by
  have h := (download_attachment_contract "K" "T" "c1" "a1" "/out"
    "report.pdf" "x" [("fileName", .str "report.pdf")] 200 [7, 9]
    ⟨.ok [("fileName", .str "report.pdf")], .resp 200 [7, 9], none⟩
    .rateLimit).2.1 rfl rfl (by decide) rfl (by decide)
  exact h

/-- **C9**: the board view renders the board name, url and description and
a `Lists (N):` header with `N` the number of lists, then each list's
block; a per-list card-fetch failure degrades to an inline
`Error loading cards` notice under that list only, while the rest of the
view still renders; zero lists yield exactly the header ending in
`Lists (0):` with no list entries; a list with zero cards renders
`No cards` in the board view and `No cards in this list` in the list view;
and a top-level fetch failure yields the single-line error message instead
of an exception. -/
theorem composite_view_rendering (bid lid2 e bn bu bd nm lid : String)
    (board l : Dict) (lists : List Dict) (n : Nat)
    (cardsOf : Option Value → Except String (List Value))
    (anyLists : Except String (List Dict)) :
    Server.get_board_resource bid
        { board := .error e, lists := anyLists, cardsOf := cardsOf }
      = s!"Error loading board {bid}: {e}"
    ∧ Server.get_board_resource bid
        { board := .ok board, lists := .error e, cardsOf := cardsOf }
      = s!"Error loading board {bid}: {e}"
    ∧ (bn = dictGetPy board "name" "Unknown" →
       bu = dictGetPy board "url" "N/A" →
       bd = dictGetPy board "desc" "No description" →
       n = lists.length →
        Server.get_board_resource bid
          { board := .ok board, lists := .ok lists, cardsOf := cardsOf }
        = String.intercalate "\n"
            ([s!"Board: {bn}", s!"URL: {bu}", s!"Description: {bd}",
              s!"\nLists ({n}):"]
             ++ lists.flatMap (Server.listBlock cardsOf)))
    ∧ (bn = dictGetPy board "name" "Unknown" →
       bu = dictGetPy board "url" "N/A" →
       bd = dictGetPy board "desc" "No description" →
        Server.get_board_resource bid
          { board := .ok board, lists := .ok [], cardsOf := cardsOf }
        = String.intercalate "\n"
            [s!"Board: {bn}", s!"URL: {bu}", s!"Description: {bd}",
             "\nLists (0):"])
    ∧ (nm = dictGetPy l "name" "Unknown" →
       lid2 = pyStrOpt (dictGet l "id") →
       cardsOf (dictGet l "id") = .error e →
        Server.listBlock cardsOf l
        = [s!"\n  - {nm} (ID: {lid2})", "    Error loading cards"])
    ∧ (nm = dictGetPy l "name" "Unknown" →
       lid2 = pyStrOpt (dictGet l "id") →
       cardsOf (dictGet l "id") = .ok [] →
        Server.listBlock cardsOf l
        = [s!"\n  - {nm} (ID: {lid2})", "    No cards"])
    ∧ Server.get_list_resource lid (.error e)
      = s!"Error loading list {lid}: {e}"
    ∧ Server.get_list_resource lid (.ok [])
      = String.intercalate "\n"
          [s!"List ID: {lid}", "\nCards (0):", "  No cards in this list"] := by
  refine ⟨rfl, rfl, ?_, ?_, ?_, ?_, rfl, rfl⟩
  · intro h1 h2 h3 h4
    subst h1
    subst h2
    subst h3
    subst h4
    rfl
  · intro h1 h2 h3
    subst h1
    subst h2
    subst h3
    rfl
  · intro h1 h2 h3
    subst h1
    subst h2
    simp only [Server.listBlock, h3]
  · intro h1 h2 h3
    subst h1
    subst h2
    simp only [Server.listBlock, h3, List.isEmpty_nil, if_pos]

/-- Witness for `composite_view_rendering`: a concrete board whose single
list's card fetch fails, plus the empty-board and empty-list renderings. -/
theorem composite_view_rendering_instance :
    Server.get_board_resource "b1"
        { board := .ok [("name", .str "B"), ("url", .str "u"),
            ("desc", .str "d")]
          lists := .ok [[("name", .str "L"), ("id", .str "l1")]]
          cardsOf := fun _ => .error "boom" }
      = String.intercalate "\n"
          (["Board: B", "URL: u", "Description: d", "\nLists (1):"]
           ++ ([[("name", Value.str "L"), ("id", Value.str "l1")]] :
                List Dict).flatMap
               (Server.listBlock (fun _ => .error "boom")))
    ∧ Server.listBlock (fun _ => .error "boom")
        [("name", .str "L"), ("id", .str "l1")]
      = ["\n  - L (ID: l1)", "    Error loading cards"]
    ∧ Server.get_board_resource "b0"
        { board := .ok [("name", .str "B0")], lists := .ok []
          cardsOf := fun _ => .ok [] }
      = String.intercalate "\n"
          ["Board: B0", "URL: N/A", "Description: No description",
           "\nLists (0):"]
    ∧ Server.listBlock (fun _ => .ok [])
        [("name", .str "L"), ("id", .str "l1")]
      = ["\n  - L (ID: l1)", "    No cards"] := by
  refine ⟨?_, ?_, ?_, ?_⟩
  · exact (composite_view_rendering "b1" "x" "e" "B" "u" "d" "x" "x"
      [("name", .str "B"), ("url", .str "u"), ("desc", .str "d")] []
      [[("name", .str "L"), ("id", .str "l1")]] 1
      (fun _ => .error "boom") (.ok [])).2.2.1 rfl rfl rfl rfl
  · exact (composite_view_rendering "x" "l1" "boom" "x" "x" "x" "L" "x"
      [] [("name", .str "L"), ("id", .str "l1")] [] 0
      (fun _ => .error "boom") (.ok [])).2.2.2.2.1 rfl rfl rfl
  · exact (composite_view_rendering "b0" "x" "e" "B0" "N/A"
      "No description" "x" "x" [("name", .str "B0")] [] [] 0
      (fun _ => .ok []) (.ok [])).2.2.2.1 rfl rfl rfl
  · exact (composite_view_rendering "x" "l1" "e" "x" "x" "x" "L" "x"
      [] [("name", .str "L"), ("id", .str "l1")] [] 0
      (fun _ => .ok []) (.ok [])).2.2.2.2.2.1 rfl rfl rfl

end TrelloMCP
